import Mathlib

/-
Verification development for the pgv_faiss repository.

The embedding covers the pieces of the source the claims are about:
  * `FAISSWrapper` from src/lib/faiss/faiss_wrapper.cpp (CPU build, WITH_GPU off):
    create_index, add_vectors, train, is_trained, search, deserialize.
  * The build-time stub implementation src/src/lib/faiss/faiss_stub.cpp
    (FakeIndex, its add/search/serialize/deserialize).
  * The row encoders of src/src/lib/pgvector/pgv_operations.cpp
    (insert_vector / batch_insert_vectors with std::fixed << setprecision(6),
    and store_vectors with default stream formatting).

Vector components, query components and distances are modelled as rationals;
the float arithmetic involved in the claims only touches values that are
exact in single precision, so no rounding behaviour is lost.

The FAISS library itself is an external collaborator.  Its index object is
modelled at its interface: a kind (IndexFlatL2 / IndexIVFFlat / IndexHNSWFlat),
its is_trained flag, its stored (id, vector) entries, and -- as observations
used by the training-lifecycle claims -- the number of times Index::train ran
and the data it was given.  Outcomes the library determines are explicit
parameters rather than baked-in successes: whether Index::train and the
Index::add calls return normally or throw (IVF training throws when the
batch has fewer points than centroids), which candidates an approximate
search (IVF with the wrapper's untouched default nprobe = 1, or HNSW)
finds, and what read_index decodes.  Only interface guarantees are fixed:
an exhaustive IndexFlatL2 search fills exactly min(k, ntotal) slots; every
search fills at most min(k, ntotal) slots and pads the rest with label -1,
the convention the wrapper's `labels[i] >= 0` filter relies on; a search on
an untrained IVF index raises (modelled as no raw output), which the
wrapper's catch turns into an empty result, exactly as in
FAISSWrapper::search.
-/

namespace PgvFaiss

/-- The concrete faiss index structure selected by FAISSWrapper::create_index:
IndexFlatL2(d), IndexIVFFlat(quantizer, d, ncentroids), or
IndexHNSWFlat(d, M) with hnsw.efConstruction = efC. -/
inductive FaissIndexKind where
  | flatL2 (d : Int)
  | ivfFlat (d : Int) (nlist : Nat)
  | hnswFlat (d : Int) (M : Nat) (efC : Nat)
  deriving DecidableEq, Repr

/-- Interface-level model of a faiss::Index object: its kind, its
`is_trained` flag, its stored entries, and two observations of the training
calls made on it (how many times `train` ran, and with which vectors). -/
structure FaissIndex where
  kind : FaissIndexKind
  isTrained : Bool
  entries : List (Int × List ℚ)
  trainCount : Nat
  trainedWith : List (List ℚ)
  deriving DecidableEq, Repr

def kindIsIVF : FaissIndexKind → Bool
  | .ivfFlat _ _ => true
  | _ => false

/-- A fresh IndexFlatL2: no training needed, is_trained from construction. -/
def flatIndex (d : Int) : FaissIndex :=
  { kind := .flatL2 d, isTrained := true, entries := [], trainCount := 0, trainedWith := [] }

/-- A fresh IndexIVFFlat: untrained until its quantizer is trained. -/
def ivfIndex (d : Int) (nlist : Nat) : FaissIndex :=
  { kind := .ivfFlat d nlist, isTrained := false, entries := [], trainCount := 0, trainedWith := [] }

/-- A fresh IndexHNSWFlat(d, M) with efConstruction = efC: no training phase. -/
def hnswIndex (d : Int) (M : Nat) (efC : Nat) : FaissIndex :=
  { kind := .hnswFlat d M efC, isTrained := true, entries := [], trainCount := 0, trainedWith := [] }

/-- faiss Index::train(n, data), parameterized by whether the external call
returns normally (`ok = true`) or throws (`ok = false`; IndexIVFFlat's
clustering throws when the training set has fewer points than centroids).
On success the index learns from the first n buffer vectors and flips
is_trained; a throwing call leaves the index untrained.  The trainCount
observation records the invocation either way. -/
def faissTrain (i : FaissIndex) (n : Nat) (data : List (List ℚ)) (ok : Bool) : FaissIndex :=
  if ok then
    { i with isTrained := true, trainCount := i.trainCount + 1, trainedWith := data.take n }
  else
    { i with trainCount := i.trainCount + 1 }

/-- Squared Euclidean distance (METRIC_L2), over the paired components. -/
def sqDist (a b : List ℚ) : ℚ :=
  ((a.zip b).map (fun p => (p.1 - p.2) * (p.1 - p.2))).sum

/-- Ordering used by the exact-search model: ascending distance, equal
distances ordered by identifier. -/
def resLe (a b : Int × ℚ) : Prop :=
  a.2 < b.2 ∨ (a.2 = b.2 ∧ a.1 ≤ b.1)

instance : DecidableRel resLe := fun a b => by
  unfold resLe; infer_instance

def kindIsFlat : FaissIndexKind → Bool
  | .flatL2 _ => true
  | _ => false

/-- faiss Index::search(1, q, k, distances, labels) at the interface.  For
the exhaustive IndexFlatL2 the k output slots hold the min(k, ntotal)
nearest entries in ascending-distance order followed by padding with label
-1.  For the approximate kinds the filled portion is externally
determined: IndexIVFFlat scans only the nprobe probed clusters (the
wrapper never changes the default nprobe = 1) and IndexHNSWFlat a bounded
neighborhood, so they may find fewer than min(k, ntotal) candidates;
`approx` is the candidate list the library produces, capped at
min(k, ntotal) (a search can never return more valid labels than k or than
stored vectors), the rest of the k slots again -1 padding.  An untrained
IVF index raises a FaissException instead (`none`). -/
def faissSearchRaw (i : FaissIndex) (q : List ℚ) (k : Nat) (approx : List (Int × ℚ)) :
    Option (List (Int × ℚ)) :=
  if kindIsIVF i.kind ∧ i.isTrained = false then none
  else
    let top :=
      if kindIsFlat i.kind then
        (List.insertionSort resLe (i.entries.map (fun e => (e.1, sqDist e.2 q)))).take k
      else
        approx.take (min k i.entries.length)
    some (top ++ List.replicate (k - top.length) ((-1 : Int), (0 : ℚ)))

/-- State of the FAISSWrapper class of faiss_wrapper.cpp (CPU build): the
owned faiss index (unique_ptr, so possibly null), the configured dimension,
the index_type_ string and the trained_ flag. -/
structure FAISSWrapper where
  index : Option FaissIndex
  dimension : Int
  indexType : String
  trainedFlag : Bool
  deriving DecidableEq, Repr

/-- `std::min(4 * (int)sqrt(100000), 65536)` from create_index.  The C cast
truncates sqrt(100000) = 316.227... to 316, which is Nat.sqrt 100000. -/
def ncentroids : Nat := min (4 * Nat.sqrt 100000) 65536

/-- FAISSWrapper::create_index (CPU path; the GPU branches are compiled out
in the WITH_GPU-off build).  Unrecognized index_type strings reach the
final `return new faiss::IndexFlatL2(dimension)`. -/
def create_index (index_type : String) (dimension : Int) : FaissIndex :=
  if index_type = "Flat" then flatIndex dimension
  else if index_type = "IVFFlat" then ivfIndex dimension ncentroids
  else if index_type = "HNSW" then hnswIndex dimension 16 40
  else flatIndex dimension

/-- The FAISSWrapper constructor: trained_ starts false and index_ is set
from create_index. -/
def mkFAISSWrapper (dimension : Int) (index_type : String) : FAISSWrapper :=
  { index := some (create_index index_type dimension)
    dimension := dimension
    indexType := index_type
    trainedFlag := false }

/-- FAISSWrapper::is_trained: `index_ && (index_->is_trained || trained_)`. -/
def is_trained (w : FAISSWrapper) : Bool :=
  match w.index with
  | none => false
  | some i => i.isTrained || w.trainedFlag

/-- FAISSWrapper::train.  A null index, null data pointer or zero count is
a silent no-op.  Otherwise, inside the try block: when the underlying
index is not already trained, Index::train runs on min(count, 100000)
vectors -- `trainOk` is the outcome of that external call -- and
`trained_ = true` executes only if it did not throw (the catch swallows
the failure and leaves trained_ unset); when the index is already trained,
no external call happens and trained_ is set directly. -/
def train (w : FAISSWrapper) (training_data : Option (List (List ℚ)))
    (trainOk : Bool) : FAISSWrapper :=
  match w.index, training_data with
  | none, _ => w
  | some _, none => w
  | some i, some data =>
    if data.length = 0 then w
    else if i.isTrained = false then
      if trainOk then
        { w with index := some (faissTrain i (min data.length 100000) data true),
                 trainedFlag := true }
      else
        { w with index := some (faissTrain i (min data.length 100000) data false) }
    else { w with trainedFlag := true }

/-- FAISSWrapper::add_vectors.  Null index, null vectors pointer or zero
count returns -1 untouched.  An untrained "IVFFlat" wrapper first calls
train on the incoming batch (train swallows its own exception, so a failed
training does not abort the add directly).  Then Index::add_with_ids (ids
given) or Index::add (sequential ids from ntotal) appends the batch;
`addOk` is the outcome of that external call -- when it throws (e.g. the
index is still untrained after a failed training), the catch returns -2
with nothing inserted. -/
def add_vectors (w : FAISSWrapper) (vectors : Option (List (List ℚ)))
    (ids : Option (List Int)) (trainOk : Bool) (addOk : Bool) : Int × FAISSWrapper :=
  match w.index, vectors with
  | none, _ => (-1, w)
  | some _, none => (-1, w)
  | some _, some vecs =>
    if vecs.length = 0 then (-1, w)
    else
      let w1 := if is_trained w = false ∧ w.indexType = "IVFFlat"
                then train w (some vecs) trainOk else w
      if addOk then
        match w1.index with
        | none => (0, w1)
        | some i1 =>
          let newEntries :=
            match ids with
            | some idlist => i1.entries ++ idlist.zip vecs
            | none => i1.entries ++
                (List.range vecs.length).map
                  (fun (j : Nat) => (((i1.entries.length : Int) + (j : Int)), vecs.getD j []))
          (0, { w1 with index := some { i1 with entries := newEntries } })
      else (-2, w1)

/-- FAISSWrapper::search.  Null index, null query or k = 0 returns the
empty result; otherwise the k raw slots from the index (approximate kinds
fill them from the externally found `approx` candidates) are filtered down
to the entries whose label is >= 0; an exception from the index (untrained
IVF) is caught and yields the empty result. -/
def search (w : FAISSWrapper) (query : Option (List ℚ)) (k : Nat)
    (approx : List (Int × ℚ)) : List (Int × ℚ) :=
  match w.index, query with
  | none, _ => []
  | some _, none => []
  | some i, some q =>
    if k = 0 then []
    else
      match faissSearchRaw i q k approx with
      | none => []
      | some raw => raw.filter (fun r => 0 ≤ r.1)

/-- FAISSWrapper::deserialize.  The faiss::read_index call is external; its
outcome on the given bytes is passed in as `decoded` (`none` when read_index
throws).  An empty blob returns -1 before anything runs; a failed decode
returns -3 from the catch; only a successful decode replaces index_ and
recomputes trained_. -/
def deserialize (w : FAISSWrapper) (data : List Nat) (decoded : Option FaissIndex) :
    Int × FAISSWrapper :=
  if data.length = 0 then (-1, w)
  else
    match decoded with
    | none => (-3, w)
    | some i => (0, { w with index := some i, trainedFlag := i.isTrained })

/-- Number of Index::train runs observed on the wrapped index. -/
def wTrainCount (w : FAISSWrapper) : Nat :=
  match w.index with
  | none => 0
  | some i => i.trainCount

/-- The training data last given to Index::train on the wrapped index. -/
def wTrainedWith (w : FAISSWrapper) : List (List ℚ) :=
  match w.index with
  | none => []
  | some i => i.trainedWith

/-- Modelled from the spec: the boundary operation `search(handle, query, k)
-> (status, result)` of src/lib/pgv_faiss.cpp, which is not among the
provided sources (only its header pgv_faiss.h and its callers are).  Per
spec sections 4.2, 6 and 7, a search against an Untrained index fails with
an IndexError status (-4, "Index operation failed") rather than training
implicitly; otherwise the wrapper search runs and status 0 is returned.
The handle state is returned unchanged: search has no side effects. -/
def pgv_faiss_search (w : FAISSWrapper) (query : Option (List ℚ)) (k : Nat)
    (approx : List (Int × ℚ)) : Int × List (Int × ℚ) × FAISSWrapper :=
  if is_trained w = false then (-4, [], w)
  else (0, search w query k approx, w)

/-
Stub implementation (src/src/lib/faiss/faiss_stub.cpp), compiled in place of
the FAISS-backed FAISSWrapper when FAISS is not installed.  Its search draws
each distance from uniform_real_distribution<float>(0.1f, 10.0f); the draws
are modelled by an oracle giving the i-th drawn value.  std::sort on the
SearchResult vector compares only distances, so it is modelled by a sort on
the distance component (tie order left to the stable model sort; std::sort
fixes no tie order either).
-/

/-- FakeIndex of faiss_stub.cpp: dimension plus parallel vectors/ids. -/
structure FakeIndex where
  dimension : Int
  vectors : List (List ℚ)
  ids : List Int
  deriving DecidableEq, Repr

/-- State of the stub FAISSWrapper: the FakeIndex and the trained_ flag,
which the stub constructor initializes to true. -/
structure StubFAISSWrapper where
  fake : FakeIndex
  dimension : Int
  indexType : String
  trainedFlag : Bool
  deriving DecidableEq, Repr

/-- The stub FAISSWrapper constructor: trained_(true), a fresh FakeIndex. -/
def stubInit (dimension : Int) (index_type : String) : StubFAISSWrapper :=
  { fake := { dimension := dimension, vectors := [], ids := [] }
    dimension := dimension
    indexType := index_type
    trainedFlag := true }

/-- Stub FAISSWrapper::add_vectors: pushes each of the count vectors and its
id onto the FakeIndex and returns 0 (no null/zero-count checks). -/
def stub_add_vectors (w : StubFAISSWrapper) (vectors : List (List ℚ)) (ids : List Int) :
    Int × StubFAISSWrapper :=
  (0, { w with fake :=
    { w.fake with
      vectors := w.fake.vectors ++ vectors
      ids := w.fake.ids ++ (List.range vectors.length).map (fun j => ids.getD j 0) } })

/-- Distance ordering of the stub's std::sort call. -/
def stubLe (a b : Int × ℚ) : Prop := a.2 ≤ b.2

instance : DecidableRel stubLe := fun a b => by
  unfold stubLe; infer_instance

/-- Stub FAISSWrapper::search: takes the first min(k, ids.size()) stored ids
in insertion order, pairs each with a freshly drawn random distance
(oracle i is the i-th draw of uniform_real_distribution(0.1f, 10.0f)),
and sorts the pairs by distance ascending. -/
def stub_search (w : StubFAISSWrapper) (oracle : Nat → ℚ) (k : Nat) : List (Int × ℚ) :=
  let count := min k w.fake.ids.length
  let results := (List.range count).map (fun i => (w.fake.ids.getD i 0, oracle i))
  List.insertionSort stubLe results

/-- Stub FAISSWrapper::serialize: the constant dummy blob
"stub_faiss_index_v1.0", independent of the index contents. -/
def stub_serialize (_ : StubFAISSWrapper) : List Nat :=
  "stub_faiss_index_v1.0".toList.map Char.toNat

/-- Stub FAISSWrapper::deserialize: accepts any data (the empty blob
included) and returns 0 without touching the handle. -/
def stub_deserialize (w : StubFAISSWrapper) (_ : List Nat) : Int × StubFAISSWrapper :=
  (0, w)

/-- Stub FAISSWrapper::train: sets trained_ only. -/
def stub_train (w : StubFAISSWrapper) : StubFAISSWrapper :=
  { w with trainedFlag := true }

/-
Row encoders of src/src/lib/pgvector/pgv_operations.cpp.

insert_vector, batch_insert_vectors and similarity_search stream each
component through `std::fixed << std::setprecision(6)`, i.e. fixed-point
notation with exactly 6 fractional digits.  store_vectors streams the raw
component (`query << vectors[i][j]`), i.e. ostream defaultfloat at the
default precision 6: at most 6 significant digits, trailing fractional
zeros dropped.  Both are modelled below on exact rational component values
(rounding of the decimal conversion is round-to-nearest; the theorems only
evaluate the encoders away from ties, where float output agrees).
-/

/-- The decimal digit characters. -/
def digitChar : Nat → Char
  | 0 => '0'
  | 1 => '1'
  | 2 => '2'
  | 3 => '3'
  | 4 => '4'
  | 5 => '5'
  | 6 => '6'
  | 7 => '7'
  | 8 => '8'
  | _ + 9 => '9'

/-- Decimal digits of n, most significant first (fuel-driven). -/
def natDecAux : Nat → Nat → List Char
  | 0, _ => []
  | _ + 1, 0 => []
  | fuel + 1, n => natDecAux fuel (n / 10) ++ [digitChar (n % 10)]

/-- Decimal rendering of a natural number. -/
def natDecDigits (n : Nat) : List Char :=
  if n = 0 then ['0'] else natDecAux n n

/-- Decimal rendering of an integer. -/
def intDec (i : Int) : String :=
  ⟨(if i < 0 then ['-'] else []) ++ natDecDigits i.natAbs⟩

/-- Left-pads a fractional-digit list with zeros to width 6, as fixed-point
output with precision 6 does. -/
def padFrac (l : List Char) : List Char :=
  List.replicate (6 - l.length) '0' ++ l

/-- `std::fixed << std::setprecision(6) << x` as a character list: the value
rounded to 6 decimal places, sign, integer part, '.', exactly 6 digits. -/
def fixed6List (q : ℚ) : List Char :=
  let n : Int := round (q * 1000000)
  (if n < 0 then ['-'] else []) ++
    natDecDigits (n.natAbs / 1000000) ++ '.' :: padFrac (natDecDigits (n.natAbs % 1000000))

/-- String form of the fixed-precision encoder. -/
def fixed6 (q : ℚ) : String := ⟨fixed6List q⟩

/-- The rational value the fixed-6 literal denotes. -/
def fixed6Val (q : ℚ) : ℚ := ((round (q * 1000000) : ℚ)) / 1000000

/-- Drops trailing '0' characters. -/
def stripZeros (l : List Char) : List Char :=
  (l.reverse.dropWhile (fun c => c = '0')).reverse

/-- The decimal exponent floor(log10 |q|) of a nonzero rational: for
|q| >= 1 the digit count of the integer part minus one; for |q| < 1 minus
the least m with |q| * 10^m >= 1 (m is at most log10(den) + 1, the searched
range). -/
def decExp (q : ℚ) : Int :=
  if 1 ≤ |q| then (Nat.log 10 (Int.toNat ⌊|q|⌋) : Int)
  else - ((((List.range' 1 (Nat.log 10 q.den + 2)).find?
            (fun m => decide (1 ≤ |q| * 10 ^ m))).getD 1 : Int))

/-- |q| scaled so that its 6 leading significant decimal digits become an
integer, rounded. -/
def sigScaled (q : ℚ) : Int := round (|q| * (10 : ℚ) ^ ((5 : Int) - decExp q))

/-- ostream defaultfloat at precision 6 (the formatting store_vectors uses),
for values in the positional-notation range |q| < 10^6: round to 6
significant digits, place the decimal point, drop trailing fractional
zeros and a bare point. -/
def defaultFmt (q : ℚ) : String :=
  if q = 0 then "0"
  else
    let sgn : List Char := if q < 0 then ['-'] else []
    let e : Int := decExp q
    let ds := natDecDigits (sigScaled q).toNat
    if e < 0 then
      let frac := stripZeros (List.replicate ((-e).toNat - 1) '0' ++ ds)
      ⟨sgn ++ '0' :: '.' :: frac⟩
    else
      let ip := ds.take (e.toNat + 1)
      let frac := stripZeros (ds.drop (e.toNat + 1))
      if frac.isEmpty then ⟨sgn ++ ip⟩ else ⟨sgn ++ ip ++ '.' :: frac⟩

/-- The bracketed comma-delimited vector literal, with the given component
encoder. -/
def vecLiteral (enc : ℚ → String) (vec : List ℚ) : String :=
  "[" ++ String.intercalate "," (vec.map enc) ++ "]"

/-- The SQL text PGVConnection::insert_vector builds: components go through
std::fixed << std::setprecision(6). -/
def insert_vector_query (table_name : String) (id : Int) (vec : List ℚ) : String :=
  "INSERT INTO " ++ table_name ++ " (id, embedding) VALUES (" ++ intDec id ++
    ", '" ++ vecLiteral fixed6 vec ++ "')"

/-- One (id, '[...]') tuple of the multi-row VALUES list built by
PGVConnection::batch_insert_vectors; components go through
std::fixed << std::setprecision(6) exactly as in insert_vector. -/
def batch_insert_tuple (id : Int) (vec : List ℚ) : String :=
  "(" ++ intDec id ++ ", '" ++ vecLiteral fixed6 vec ++ "')"

/-- The SQL text PGVConnection::batch_insert_vectors builds. -/
def batch_insert_query (table_name : String) (ids : List Int) (vecs : List (List ℚ)) : String :=
  "INSERT INTO " ++ table_name ++ " (id, embedding) VALUES " ++
    String.intercalate ", " ((ids.zip vecs).map (fun p => batch_insert_tuple p.1 p.2))

/-- The SQL text PGVConnection::store_vectors builds for row i: the
components are streamed with the default formatting (`query << vectors[i][j]`,
no std::fixed, no setprecision). -/
def store_vectors_row_query (table_name : String) (id : Int) (vec : List ℚ) : String :=
  "INSERT INTO " ++ table_name ++ " (id, embedding) VALUES (" ++ intDec id ++
    ", '" ++ vecLiteral defaultFmt vec ++ "')"

/-- Number of characters after the last '.' of the string (the count of
fractional digits of a decimal literal). -/
def fracLen (s : String) : Nat :=
  (s.toList.reverse.takeWhile (fun c => c ≠ '.')).length

/-- A sequence of add_vectors calls folded over a wrapper; each element is
the batch, the ids, and the outcomes of the external train and add calls
of that invocation. -/
def addBatches (w : FAISSWrapper)
    (bs : List (List (List ℚ) × Option (List Int) × Bool × Bool)) : FAISSWrapper :=
  bs.foldl (fun w b => (add_vectors w (some b.1) b.2.1 b.2.2.1 b.2.2.2).2) w

/-- A trained IVFFlat wrapper holding ids 1 and 2, as left by a successful
train-and-add; used to evaluate search when the probed cluster (default
nprobe = 1) contains only one of the two stored vectors. -/
def ivfPartialProbe : FAISSWrapper :=
  { index := some { kind := .ivfFlat 1 ncentroids, isTrained := true,
                    entries := [(1, [0]), (2, [1])], trainCount := 1,
                    trainedWith := [[0], [1]] }
    dimension := 1
    indexType := "IVFFlat"
    trainedFlag := true }

/-- The stub handle of the round-trip scenario: one vector [0,0,0,0] with
id 1 added to a fresh stub index of dimension 4. -/
def stubRoundTripOriginal : StubFAISSWrapper :=
  (stub_add_vectors (stubInit 4 "IVFFlat") [[0, 0, 0, 0]] [1]).2

/-- A fresh stub handle after deserializing the serialized form of
stubRoundTripOriginal into it. -/
def stubRoundTripRestored : StubFAISSWrapper :=
  (stub_deserialize (stubInit 4 "IVFFlat") (stub_serialize stubRoundTripOriginal)).2

/-- The stub handle of the spec's concrete Flat scenario: dimension 4,
ids [1,2,3] with vectors [[0,0,0,0],[1,0,0,0],[0,1,0,0]]. -/
def stubScenario : StubFAISSWrapper :=
  (stub_add_vectors (stubInit 4 "Flat") [[0, 0, 0, 0], [1, 0, 0, 0], [0, 1, 0, 0]] [1, 2, 3]).2

section Lemmas

/-- Adding to an already-trained wrapper never reaches the training branch:
the trained state and the observed train count are untouched, whatever the
outcome of the external add call. -/
theorem add_vectors_preserves_trained (w : FAISSWrapper) (v : Option (List (List ℚ)))
    (ids : Option (List Int)) (trainOk addOk : Bool) (h : is_trained w = true) :
    is_trained (add_vectors w v ids trainOk addOk).2 = true ∧
    wTrainCount (add_vectors w v ids trainOk addOk).2 = wTrainCount w := by
  rcases hw : w.index with _ | i
  · simp [is_trained, hw] at h
  · rcases v with _ | vecs
    · simp [add_vectors, hw, h]
    · by_cases hlen : vecs.length = 0
      · simp [add_vectors, hw, hlen, h]
      · cases hb1 : i.isTrained <;> cases hb2 : w.trainedFlag <;>
          simp [is_trained, hw, hb1, hb2] at h ⊢ <;>
          cases addOk <;>
          simp [add_vectors, hw, hlen, hb1, hb2, is_trained, wTrainCount]

/-- Folding further add calls over a trained wrapper leaves the train count
unchanged. -/
theorem addBatches_preserves_trained
    (bs : List (List (List ℚ) × Option (List Int) × Bool × Bool))
    (w : FAISSWrapper) (h : is_trained w = true) :
    is_trained (addBatches w bs) = true ∧ wTrainCount (addBatches w bs) = wTrainCount w := by
  induction bs generalizing w with
  | nil => simpa [addBatches]
  | cons b bs ih =>
    have h1 := add_vectors_preserves_trained w (some b.1) b.2.1 b.2.2.1 b.2.2.2 h
    have h2 := ih (add_vectors w (some b.1) b.2.1 b.2.2.1 b.2.2.2).2 h1.1
    simp only [addBatches, List.foldl_cons] at h2 ⊢
    exact ⟨h2.1, h2.2.trans h1.2⟩

/-- The first valid add on a fresh "IVFFlat" wrapper, when the underlying
Index::train call succeeds, trains the index exactly once on the incoming
batch capped at its first 100000 vectors and leaves the wrapper trained --
whether or not the subsequent add call itself succeeds. -/
theorem add_vectors_first_ivf (d : Int) (vecs : List (List ℚ)) (ids : Option (List Int))
    (addOk : Bool) (hv : vecs ≠ []) :
    wTrainCount (add_vectors (mkFAISSWrapper d "IVFFlat") (some vecs) ids true addOk).2 = 1 ∧
    wTrainedWith (add_vectors (mkFAISSWrapper d "IVFFlat") (some vecs) ids true addOk).2 =
      vecs.take (min vecs.length 100000) ∧
    is_trained (add_vectors (mkFAISSWrapper d "IVFFlat") (some vecs) ids true addOk).2
      = true := by
  have hlen : ¬ vecs.length = 0 := by simpa [List.length_eq_zero] using hv
  cases addOk <;>
    simp [add_vectors, mkFAISSWrapper, create_index, ivfIndex, is_trained, train, faissTrain,
      wTrainCount, wTrainedWith, hlen]

/-- The first valid add on a fresh "IVFFlat" wrapper returns 0 when both
external calls return normally. -/
theorem add_vectors_first_ivf_status (d : Int) (vecs : List (List ℚ))
    (ids : Option (List Int)) (hv : vecs ≠ []) :
    (add_vectors (mkFAISSWrapper d "IVFFlat") (some vecs) ids true true).1 = 0 := by
  have hlen : ¬ vecs.length = 0 := by simpa [List.length_eq_zero] using hv
  simp [add_vectors, mkFAISSWrapper, create_index, ivfIndex, is_trained, train, faissTrain,
    hlen]

/-- An explicit train call on a fresh "IVFFlat" wrapper with a nonempty
batch, when the underlying Index::train succeeds, trains exactly once and
makes the wrapper trained. -/
theorem train_first_ivf (d : Int) (tdata : List (List ℚ)) (ht : tdata ≠ []) :
    wTrainCount (train (mkFAISSWrapper d "IVFFlat") (some tdata) true) = 1 ∧
    is_trained (train (mkFAISSWrapper d "IVFFlat") (some tdata) true) = true := by
  have hlen : ¬ tdata.length = 0 := by simpa [List.length_eq_zero] using ht
  simp [train, mkFAISSWrapper, create_index, ivfIndex, faissTrain, is_trained, wTrainCount, hlen]

/-- The -1 padding slots of a raw faiss search output are all dropped by
the wrapper's labels-nonnegative filter. -/
theorem filter_replicate_pad (n : Nat) :
    (List.replicate n ((-1 : Int), (0 : ℚ))).filter (fun r => 0 ≤ r.1) = [] := by
  induction n with
  | zero => rfl
  | succ n ih => simp [List.replicate_succ, List.filter_cons, ih]

/-- On a Flat (exhaustive-scan) index with nonnegative identifiers, the
wrapper search returns exactly min(k, ntotal) results for positive k,
whatever `approx` carries (the flat kind never consults it). -/
theorem search_length_flat (w : FAISSWrapper) (i : FaissIndex) (d : Int) (q : List ℚ)
    (k : Nat) (approx : List (Int × ℚ))
    (hw : w.index = some i)
    (hkind : i.kind = .flatL2 d)
    (hids : ∀ e ∈ i.entries, 0 ≤ e.1)
    (hk : k ≠ 0) :
    (search w (some q) k approx).length = min k i.entries.length := by
  have hcond : ¬ (kindIsIVF i.kind = true ∧ i.isTrained = false) := by
    simp [hkind, kindIsIVF]
  have hflat : kindIsFlat i.kind = true := by simp [hkind, kindIsFlat]
  have hslen : (List.insertionSort resLe
      (i.entries.map (fun e => (e.1, sqDist e.2 q)))).length = i.entries.length := by
    rw [(List.perm_insertionSort _ _).length_eq, List.length_map]
  have htop : ∀ r ∈ (List.insertionSort resLe
      (i.entries.map (fun e => (e.1, sqDist e.2 q)))).take k, (0 : Int) ≤ r.1 := by
    intro r hr
    have hr1 := List.take_subset k _ hr
    have hr2 := (List.perm_insertionSort resLe _).mem_iff.mp hr1
    rcases List.mem_map.mp hr2 with ⟨e, he, hre⟩
    rw [← hre]
    exact hids e he
  have hfil : ((List.insertionSort resLe
        (i.entries.map (fun e => (e.1, sqDist e.2 q)))).take k).filter
      (fun r => 0 ≤ r.1) =
      (List.insertionSort resLe (i.entries.map (fun e => (e.1, sqDist e.2 q)))).take k :=
    List.filter_eq_self.mpr (fun a ha => by simpa using htop a ha)
  have hsearch : search w (some q) k approx =
      (List.insertionSort resLe (i.entries.map (fun e => (e.1, sqDist e.2 q)))).take k := by
    simp only [search, hw, hk, faissSearchRaw, hcond, if_false, if_neg hcond, hflat, if_true,
      List.filter_append, hfil, filter_replicate_pad, List.append_nil]
  rw [hsearch, List.length_take, hslen]

/-- For every index kind and every externally found candidate list, the
wrapper search never returns more than min(k, ntotal) results. -/
theorem search_length_le (w : FAISSWrapper) (i : FaissIndex) (q : List ℚ) (k : Nat)
    (approx : List (Int × ℚ)) (hw : w.index = some i) :
    (search w (some q) k approx).length ≤ min k i.entries.length := by
  by_cases hk : k = 0
  · simp [search, hw, hk]
  · by_cases hcond : (kindIsIVF i.kind = true ∧ i.isTrained = false)
    · simp [search, hw, hk, faissSearchRaw, hcond]
    · by_cases hflat : kindIsFlat i.kind = true
      · simp only [search, hw, hk, faissSearchRaw, if_neg hcond, hflat, if_true,
          List.filter_append, filter_replicate_pad, List.append_nil]
        refine le_trans (List.length_filter_le _ _) ?_
        rw [List.length_take, (List.perm_insertionSort _ _).length_eq, List.length_map]
      · simp only [search, hw, hk, faissSearchRaw, if_neg hcond, hflat,
          List.filter_append, filter_replicate_pad, List.append_nil, Bool.false_eq_true,
          if_false]
        refine le_trans (List.length_filter_le _ _) ?_
        rw [List.length_take]
        exact min_le_left _ _

/-- Every digit character differs from the decimal point. -/
theorem digitChar_ne_dot (n : Nat) : digitChar n ≠ '.' := by
  rcases n with _ | _ | _ | _ | _ | _ | _ | _ | _ | n
  case succ.succ.succ.succ.succ.succ.succ.succ.succ =>
    exact (by decide : ('9' : Char) ≠ '.')
  all_goals decide

/-- Every character emitted by natDecAux is a digit, hence not a point. -/
theorem natDecAux_ne_dot (fuel : Nat) : ∀ n, ∀ c ∈ natDecAux fuel n, c ≠ '.' := by
  induction fuel with
  | zero => intro n c hc; simp [natDecAux] at hc
  | succ fuel ih =>
    intro n c hc
    cases n with
    | zero => simp [natDecAux] at hc
    | succ m =>
      rw [show natDecAux (fuel + 1) (m + 1) =
          natDecAux fuel ((m + 1) / 10) ++ [digitChar ((m + 1) % 10)] from rfl] at hc
      rcases List.mem_append.mp hc with h1 | h1
      · exact ih _ c h1
      · rw [List.mem_singleton.mp h1]; exact digitChar_ne_dot _

/-- Every character of a decimal rendering differs from the point. -/
theorem natDecDigits_ne_dot (n : Nat) : ∀ c ∈ natDecDigits n, c ≠ '.' := by
  intro c hc
  by_cases h : n = 0
  · simp [natDecDigits, h] at hc
    rw [hc]; decide
  · rw [natDecDigits, if_neg h] at hc
    exact natDecAux_ne_dot n n c hc

/-- natDecAux writes at most k digits for numbers below 10^k. -/
theorem natDecAux_length (fuel : Nat) : ∀ n k, n < 10 ^ k → (natDecAux fuel n).length ≤ k := by
  induction fuel with
  | zero => intro n k _; simp [natDecAux]
  | succ fuel ih =>
    intro n k hn
    cases n with
    | zero => simp [natDecAux]
    | succ m =>
      rw [show natDecAux (fuel + 1) (m + 1) =
          natDecAux fuel ((m + 1) / 10) ++ [digitChar ((m + 1) % 10)] from rfl]
      have hk : k ≠ 0 := by
        intro h0
        rw [h0] at hn
        omega
      have hdiv : (m + 1) / 10 < 10 ^ (k - 1) := by
        rw [Nat.div_lt_iff_lt_mul (by norm_num)]
        calc m + 1 < 10 ^ k := hn
          _ = 10 ^ (k - 1) * 10 := by
            rw [← Nat.pow_succ]
            congr 1
            omega
      have := ih ((m + 1) / 10) (k - 1) hdiv
      simp only [List.length_append, List.length_singleton]
      omega

/-- A natural below a million renders with at most 6 digits. -/
theorem natDecDigits_length_le (n : Nat) (h : n < 1000000) : (natDecDigits n).length ≤ 6 := by
  by_cases h0 : n = 0
  · simp [natDecDigits, h0]
  · rw [natDecDigits, if_neg h0]
    exact natDecAux_length n n 6 (by norm_num at h ⊢; exact h)

/-- Zero-padding a ≤6-digit fractional part gives exactly 6 characters. -/
theorem padFrac_length (l : List Char) (h : l.length ≤ 6) : (padFrac l).length = 6 := by
  simp [padFrac]
  omega

/-- No character of a padded fractional part is the decimal point. -/
theorem padFrac_ne_dot (l : List Char) (h : ∀ c ∈ l, c ≠ '.') :
    ∀ c ∈ padFrac l, c ≠ '.' := by
  intro c hc
  rcases List.mem_append.mp hc with h1 | h1
  · rw [List.eq_of_mem_replicate h1]; decide
  · exact h c h1

/-- takeWhile recovers the full prefix before the first failing element. -/
theorem takeWhile_append_cons {p : Char → Bool} (l1 : List Char) (x : Char) (l2 : List Char)
    (h1 : ∀ a ∈ l1, p a = true) (h2 : p x = false) :
    (l1 ++ x :: l2).takeWhile p = l1 := by
  induction l1 with
  | nil => simp [List.takeWhile_cons, h2]
  | cons a l ih =>
    have ha : p a = true := h1 a (List.mem_cons_self a l)
    simp only [List.cons_append, List.takeWhile_cons, ha, if_true]
    rw [ih (fun b hb => h1 b (List.mem_cons_of_mem a hb))]

/-- The fixed-precision-6 encoder always writes exactly 6 fractional
digits, whatever the component value. -/
theorem fracLen_fixed6 (q : ℚ) : fracLen (fixed6 q) = 6 := by
  have hfr6 : ((round (q * 1000000)).natAbs % 1000000) < 1000000 := Nat.mod_lt _ (by norm_num)
  have hlen : (padFrac (natDecDigits ((round (q * 1000000)).natAbs % 1000000))).length = 6 :=
    padFrac_length _ (natDecDigits_length_le _ hfr6)
  have hdots : ∀ c ∈ padFrac (natDecDigits ((round (q * 1000000)).natAbs % 1000000)),
      c ≠ '.' := padFrac_ne_dot _ (natDecDigits_ne_dot _)
  show ((fixed6List q).reverse.takeWhile (fun c => c ≠ '.')).length = 6
  rw [fixed6List]
  rw [List.reverse_append, List.reverse_append, List.reverse_cons, List.append_assoc,
    List.singleton_append]
  rw [takeWhile_append_cons]
  · rw [List.length_reverse]
    exact hlen
  · intro a ha
    have := hdots a (List.mem_reverse.mp ha)
    simpa using this
  · simp

/-- Evaluation rule for the fixed-6 encoder once the rounded scaled value
is known. -/
theorem fixed6_eval (q : ℚ) (n : Int) (h : round (q * 1000000) = n) :
    fixed6 q = ⟨(if n < 0 then ['-'] else []) ++
      natDecDigits (n.natAbs / 1000000) ++ '.' ::
        padFrac (natDecDigits (n.natAbs % 1000000))⟩ := by
  rw [fixed6, fixed6List, h]

/-- The rounding step of the encoders at the concrete component 0.5. -/
theorem round_half_scaled : round ((1/2 : ℚ) * 1000000) = 500000 := by
  rw [round_eq]
  rw [show (1/2 : ℚ) * 1000000 + 1/2 = ((1000001 : ℤ) : ℚ) / ((2 : ℕ) : ℚ) by
    push_cast; ring]
  rw [Rat.floor_intCast_div_natCast]
  decide

/-- The fixed-6 encoder writes 0.5 as 0.500000. -/
theorem fixed6_half : fixed6 (1/2 : ℚ) = "0.500000" := by
  rw [fixed6_eval (1/2) 500000 round_half_scaled]
  decide

/-- The decimal exponent of 0.5 is -1. -/
theorem decExp_half : decExp (1/2 : ℚ) = -1 := by
  have habs : |(1/2 : ℚ)| = 1/2 := abs_of_pos (by norm_num)
  have hlt1 : ¬ ((1 : ℚ) ≤ |(1/2 : ℚ)|) := by rw [habs]; norm_num
  have hden : (1/2 : ℚ).den = 2 := by norm_num
  have hlog : Nat.log 10 2 = 0 := by simp [Nat.log_eq_zero_iff]
  rw [decExp, if_neg hlt1, hden, hlog]
  rw [show List.range' 1 (0 + 2) = [1, 2] from rfl]
  rw [habs]
  norm_num [List.find?_cons]

/-- The 6-significant-digit scaling of 0.5 is the integer 500000. -/
theorem sigScaled_half : sigScaled (1/2 : ℚ) = 500000 := by
  have habs : |(1/2 : ℚ)| = 1/2 := abs_of_pos (by norm_num)
  rw [sigScaled, decExp_half, habs]
  rw [show ((5 : Int) - -1) = 6 from rfl]
  rw [show ((10 : ℚ) ^ ((6 : Int))) = 1000000 by norm_num]
  exact round_half_scaled

/-- The default ostream formatting writes 0.5 as 0.5. -/
theorem defaultFmt_half : defaultFmt (1/2 : ℚ) = "0.5" := by
  have h0 : ¬ ((1/2 : ℚ) = 0) := by norm_num
  have hneg : ¬ ((1/2 : ℚ) < 0) := by norm_num
  rw [defaultFmt, if_neg h0]
  simp only [decExp_half, sigScaled_half, if_neg hneg]
  decide

/-- Rationals expressible with 6 fractional decimal digits are recovered
exactly from the fixed-6 literal value. -/
theorem fixed6Val_exact (q : ℚ) (h : (q * 1000000).den = 1) : fixed6Val q = q := by
  unfold fixed6Val
  have h1 : ((q * 1000000).num : ℚ) = q * 1000000 :=
    Rat.coe_int_num_of_den_eq_one h
  have h2 : round (q * 1000000) = (q * 1000000).num := by
    conv_lhs => rw [← h1]
    rw [round_intCast]
  rw [h2, h1, mul_div_assoc]
  norm_num

end Lemmas

/-- C7: a family string that is none of the recognized "Flat", "IVFFlat",
"HNSW" does not make FAISSWrapper::create_index fail; it falls through to
the final branch and constructs a brute-force L2 Flat index with the
configured dimension. -/
theorem claim_C7_unknown_family_falls_back_to_flat (index_type : String) (d : Int)
    (h1 : index_type ≠ "Flat") (h2 : index_type ≠ "IVFFlat") (h3 : index_type ≠ "HNSW") :
    create_index index_type d = flatIndex d := by
  simp [create_index, h1, h2, h3]

theorem claim_C7_witness :
    ("LSH" : String) ≠ "Flat" ∧ ("LSH" : String) ≠ "IVFFlat" ∧ ("LSH" : String) ≠ "HNSW" ∧
    create_index "LSH" 4 = flatIndex 4 :=
  ⟨by decide, by decide, by decide,
    claim_C7_unknown_family_falls_back_to_flat "LSH" 4 (by decide) (by decide) (by decide)⟩

/-- C8: an "IVFFlat" index is constructed with the quantizer cluster count
min(4 * sqrt(100000), 65536), the square root truncated to the integer 316,
i.e. 1264 clusters (no expected-size input exists; 100000 is the fixed
default in the formula). -/
theorem claim_C8_ivf_default_ncentroids (d : Int) :
    create_index "IVFFlat" d = ivfIndex d (min (4 * Nat.sqrt 100000) 65536) ∧
    ncentroids = 1264 ∧ Nat.sqrt 100000 = 316 ∧ 4 * 316 < 65536 := by
  have hs : Nat.sqrt 100000 = 316 := by
    have h1 : 316 ≤ Nat.sqrt 100000 := Nat.le_sqrt.mpr (by norm_num)
    have h2 : Nat.sqrt 100000 < 317 := Nat.sqrt_lt.mpr (by norm_num)
    omega
  exact ⟨rfl, by rw [ncentroids, hs]; norm_num, hs, by norm_num⟩

/-- C10: FAISSWrapper::add_vectors with a null vectors pointer, or with
count 0, returns -1 and hands back the wrapper state it was given,
unchanged (stored contents and training state included) -- the guard fires
before the try block, so the external call outcomes are irrelevant. -/
theorem claim_C10_add_vectors_rejects_null_and_empty (w : FAISSWrapper)
    (ids : Option (List Int)) (trainOk addOk : Bool) :
    add_vectors w none ids trainOk addOk = (-1, w) ∧
    add_vectors w (some []) ids trainOk addOk = (-1, w) := by
  cases h : w.index <;> simp [add_vectors, h]

/-- C2: a search through the boundary layer against an untrained
"IVFFlat" wrapper fails with the IndexError status -4, returns no results
and performs no implicit training: the handle comes back unchanged, with
the same underlying train count.  (The boundary status behaviour is the
spec-modelled `pgv_faiss_search`; the wrapper-level `search` it guards is
embedded from the source and never calls train.) -/
theorem claim_C2_search_untrained_ivf_errors (w : FAISSWrapper) (query : Option (List ℚ))
    (k : Nat) (approx : List (Int × ℚ))
    (_hty : w.indexType = "IVFFlat") (huntr : is_trained w = false) :
    pgv_faiss_search w query k approx = (-4, [], w) ∧
    (pgv_faiss_search w query k approx).1 ≠ 0 ∧
    wTrainCount (pgv_faiss_search w query k approx).2.2 = wTrainCount w := by
  simp [pgv_faiss_search, huntr]

theorem claim_C2_witness :
    (mkFAISSWrapper 8 "IVFFlat").indexType = "IVFFlat" ∧
    is_trained (mkFAISSWrapper 8 "IVFFlat") = false ∧
    pgv_faiss_search (mkFAISSWrapper 8 "IVFFlat") (some [0]) 3 [] =
      (-4, [], mkFAISSWrapper 8 "IVFFlat") :=
  ⟨rfl, by decide,
    (claim_C2_search_untrained_ivf_errors (mkFAISSWrapper 8 "IVFFlat") (some [0]) 3 []
      rfl (by decide)).1⟩

/-- C3 counterexample: a one-vector batch against a fresh "IVFFlat"
wrapper, with the external outcomes of the throwing run (IndexIVFFlat
training requires at least as many points as the 1264 centroids, so
Index::train throws on a 1-vector batch; the index stays untrained, so
Index::add_with_ids then throws as well).  The add returns -2, not 0; the
wrapper is still untrained; and a second identical add re-runs training,
so after 2 adds the underlying training has run twice, not once. -/
theorem claim_C3_counterexample :
    (add_vectors (mkFAISSWrapper 8 "IVFFlat")
      (some [[0, 0, 0, 0, 0, 0, 0, 0]]) (some [1]) false false).1 = -2 ∧
    wTrainCount (add_vectors (mkFAISSWrapper 8 "IVFFlat")
      (some [[0, 0, 0, 0, 0, 0, 0, 0]]) (some [1]) false false).2 = 1 ∧
    is_trained (add_vectors (mkFAISSWrapper 8 "IVFFlat")
      (some [[0, 0, 0, 0, 0, 0, 0, 0]]) (some [1]) false false).2 = false ∧
    wTrainCount (add_vectors (add_vectors (mkFAISSWrapper 8 "IVFFlat")
        (some [[0, 0, 0, 0, 0, 0, 0, 0]]) (some [1]) false false).2
      (some [[0, 0, 0, 0, 0, 0, 0, 0]]) (some [2]) false false).2 = 2 := by
  refine ⟨?_, ?_, ?_, ?_⟩ <;> decide

/-- C3 amended: training-lifecycle gate of the "IVFFlat" wrapper in the
runs where the external Index::train call succeeds.  (1) The first valid
add on a fresh wrapper, with both external calls returning normally,
returns 0 and runs the underlying training exactly once, on the incoming
batch itself capped to its first 100000 vectors.  (2) After a first valid
add whose training call succeeds, any further add calls -- whatever their
own external outcomes -- leave the training count at one.  (3) An explicit
prior train whose external call succeeds trains exactly once, and a later
add (any outcomes) does not re-train. -/
theorem claim_C3_training_gate :
    (∀ (d : Int) (vecs : List (List ℚ)) (ids : Option (List Int)), vecs ≠ [] →
        (add_vectors (mkFAISSWrapper d "IVFFlat") (some vecs) ids true true).1 = 0 ∧
        wTrainCount (add_vectors (mkFAISSWrapper d "IVFFlat") (some vecs) ids true true).2
          = 1 ∧
        wTrainedWith (add_vectors (mkFAISSWrapper d "IVFFlat") (some vecs) ids true true).2 =
          vecs.take (min vecs.length 100000)) ∧
    (∀ (d : Int) (b : List (List ℚ) × Option (List Int) × Bool × Bool)
        (bs : List (List (List ℚ) × Option (List Int) × Bool × Bool)),
        b.1 ≠ [] → b.2.2.1 = true →
        wTrainCount (addBatches (mkFAISSWrapper d "IVFFlat") (b :: bs)) = 1) ∧
    (∀ (d : Int) (tdata : List (List ℚ)) (vecs : List (List ℚ)) (ids : Option (List Int))
        (trainOk addOk : Bool), tdata ≠ [] →
        wTrainCount (train (mkFAISSWrapper d "IVFFlat") (some tdata) true) = 1 ∧
        wTrainCount
          (add_vectors (train (mkFAISSWrapper d "IVFFlat") (some tdata) true)
            (some vecs) ids trainOk addOk).2 = 1) := by
  refine ⟨?_, ?_, ?_⟩
  · intro d vecs ids hv
    have h := add_vectors_first_ivf d vecs ids true hv
    exact ⟨add_vectors_first_ivf_status d vecs ids hv, h.1, h.2.1⟩
  · intro d b bs hb hok
    have h1 := add_vectors_first_ivf d b.1 b.2.1 b.2.2.2 hb
    have h2 := addBatches_preserves_trained bs
      (add_vectors (mkFAISSWrapper d "IVFFlat") (some b.1) b.2.1 b.2.2.1 b.2.2.2).2
      (by rw [hok]; exact h1.2.2)
    simp only [addBatches, List.foldl_cons] at h2 ⊢
    rw [h2.2, hok, h1.1]
  · intro d tdata vecs ids trainOk addOk ht
    have h1 := train_first_ivf d tdata ht
    have h2 := add_vectors_preserves_trained
      (train (mkFAISSWrapper d "IVFFlat") (some tdata) true) (some vecs) ids trainOk addOk
      h1.2
    exact ⟨h1.1, h2.2.trans h1.1⟩

theorem claim_C3_witness :
    ([[(1 : ℚ)]] : List (List ℚ)) ≠ [] ∧
    wTrainCount
      (add_vectors (mkFAISSWrapper 1 "IVFFlat") (some [[(1 : ℚ)]]) (some [5]) true true).2
      = 1 ∧
    wTrainCount (addBatches (mkFAISSWrapper 1 "IVFFlat")
      [([[(1 : ℚ)]], some [5], true, true), ([[(2 : ℚ)]], some [6], true, true)]) = 1 ∧
    wTrainCount (add_vectors (train (mkFAISSWrapper 1 "IVFFlat") (some [[(3 : ℚ)]]) true)
      (some [[(1 : ℚ)]]) (some [5]) true true).2 = 1 :=
  ⟨by decide,
    (claim_C3_training_gate.1 1 [[(1 : ℚ)]] (some [5]) (by decide)).2.1,
    claim_C3_training_gate.2.1 1 ([[(1 : ℚ)]], some [5], true, true)
      [([[(2 : ℚ)]], some [6], true, true)] (by decide) rfl,
    (claim_C3_training_gate.2.2 1 [[(3 : ℚ)]] [[(1 : ℚ)]] (some [5]) true true
      (by decide)).2⟩

/-- C6: failure behaviour of deserialize on empty or malformed blobs.  In
the FAISS-backed FAISSWrapper::deserialize an empty blob returns -1 and a
blob read_index cannot decode returns -3, the handle state unchanged in
both cases (the claim's contract).  The stub build's deserialize, however,
returns status 0 (success) even for the empty blob: the failing input of
the claim. -/
theorem claim_C6_deserialize_failure_behaviour :
    (∀ (w : FAISSWrapper) (decoded : Option FaissIndex),
        deserialize w [] decoded = (-1, w)) ∧
    (∀ (w : FAISSWrapper) (data : List Nat), data ≠ [] →
        deserialize w data none = (-3, w)) ∧
    stub_deserialize (stubInit 4 "IVFFlat") [] = (0, stubInit 4 "IVFFlat") := by
  refine ⟨fun w decoded => rfl, fun w data h => ?_, rfl⟩
  have hlen : ¬ data.length = 0 := by simpa [List.length_eq_zero] using h
  simp [deserialize, hlen]

theorem claim_C6_witness :
    deserialize (mkFAISSWrapper 4 "Flat") [] none = (-1, mkFAISSWrapper 4 "Flat") ∧
    ([1] : List Nat) ≠ [] ∧
    deserialize (mkFAISSWrapper 4 "Flat") [1] none = (-3, mkFAISSWrapper 4 "Flat") :=
  ⟨claim_C6_deserialize_failure_behaviour.1 (mkFAISSWrapper 4 "Flat") none, by decide,
    claim_C6_deserialize_failure_behaviour.2.1 (mkFAISSWrapper 4 "Flat") [1] (by decide)⟩

/-- C1: in the stub build, serialize captures no index state (it is the
constant blob "stub_faiss_index_v1.0") and deserialize installs nothing, so
a fresh handle restored from the serialized form of a handle holding vector
id 1 returns no ids at all where the original returns [1]: round-trip
search equivalence fails.  (The id multiset of a stub search does not
depend on the random distance draws, so the fixed oracle is representative.) -/
theorem claim_C1_stub_roundtrip_loses_index :
    (stub_search stubRoundTripRestored (fun _ => 1) 1).map Prod.fst = [] ∧
    (stub_search stubRoundTripOriginal (fun _ => 1) 1).map Prod.fst = [1] ∧
    stub_serialize stubRoundTripOriginal = stub_serialize (stubInit 4 "IVFFlat") := by
  refine ⟨?_, ?_, rfl⟩ <;> decide

/-- C4: evaluation of the stub search at the spec's concrete scenario
(dimension 4, ids [1,2,3], query distances irrelevant, k = 2).  Whatever
values the uniform_real_distribution(0.1, 10.0) draws take, every returned
distance is at least 0.1, so the result can never be the claimed distance
sequence [0.0, 1.0]: the stub's distances are random draws, not L2
distances to the query. -/
theorem claim_C4_stub_search_random_distances (oracle : Nat → ℚ)
    (h : ∀ i, 1/10 ≤ oracle i ∧ oracle i < 10) :
    (stub_search stubScenario oracle 2).length = 2 ∧
    (∀ r ∈ stub_search stubScenario oracle 2, 1/10 ≤ r.2) ∧
    (stub_search stubScenario oracle 2).map Prod.snd ≠ [0, 1] := by
  have hres : stub_search stubScenario oracle 2 =
      List.insertionSort stubLe [(1, oracle 0), (2, oracle 1)] := rfl
  have hperm := List.perm_insertionSort stubLe [((1 : Int), oracle 0), (2, oracle 1)]
  have hmem : ∀ r ∈ stub_search stubScenario oracle 2, 1/10 ≤ r.2 := by
    intro r hr
    rw [hres] at hr
    have hr2 := hperm.mem_iff.mp hr
    simp only [List.mem_cons, List.not_mem_nil, or_false] at hr2
    rcases hr2 with h1 | h1
    · rw [h1]; exact (h 0).1
    · rw [h1]; exact (h 1).1
  refine ⟨by rw [hres, hperm.length_eq]; rfl, hmem, ?_⟩
  intro heq
  have h0 : (0 : ℚ) ∈ (stub_search stubScenario oracle 2).map Prod.snd := by
    rw [heq]; simp
  rcases List.mem_map.mp h0 with ⟨r, hr, hr2⟩
  have := hmem r hr
  rw [hr2] at this
  linarith

/-- C5 counterexample: a trained "IVFFlat" wrapper holding two vectors,
searched with k = 2 while the one probed cluster (the wrapper never
changes faiss's default nprobe = 1) contains only the vector with id 1:
the external search fills one slot and pads the other with -1, so the
wrapper returns 1 entry, not min(k, n) = 2. -/
theorem claim_C5_counterexample :
    is_trained ivfPartialProbe = true ∧
    (search ivfPartialProbe (some [0]) 2 [(1, 0)]).length = 1 ∧
    ¬ ((search ivfPartialProbe (some [0]) 2 [(1, 0)]).length = min 2 2) := by
  refine ⟨?_, ?_, ?_⟩ <;> decide

/-- C5 amended: result-count contract of search.  (1) On a wrapper holding
a Flat (exhaustive-scan) index with n stored entries (nonnegative ids, as
the -1 sentinel convention presumes) and positive k, search returns
exactly min(k, n) entries, for every external candidate list.  (2) On
every index kind the result never exceeds min(k, n) entries.  (3) A Flat
or HNSW (Graph) wrapper searched immediately after construction, with
zero vectors added, yields the empty result and boundary status 0
(success), not an error.  (4) The stub build's search returns exactly
min(k, n) entries. -/
theorem claim_C5_search_result_count :
    (∀ (w : FAISSWrapper) (i : FaissIndex) (d : Int) (q : List ℚ) (k : Nat)
        (approx : List (Int × ℚ)),
        w.index = some i →
        i.kind = .flatL2 d →
        (∀ e ∈ i.entries, 0 ≤ e.1) →
        k ≠ 0 →
        (search w (some q) k approx).length = min k i.entries.length) ∧
    (∀ (w : FAISSWrapper) (i : FaissIndex) (q : List ℚ) (k : Nat)
        (approx : List (Int × ℚ)),
        w.index = some i →
        (search w (some q) k approx).length ≤ min k i.entries.length) ∧
    (∀ (d : Int) (q : List ℚ) (k : Nat) (approx : List (Int × ℚ)),
        search (mkFAISSWrapper d "Flat") (some q) k approx = [] ∧
        (pgv_faiss_search (mkFAISSWrapper d "Flat") (some q) k approx).1 = 0 ∧
        search (mkFAISSWrapper d "HNSW") (some q) k approx = [] ∧
        (pgv_faiss_search (mkFAISSWrapper d "HNSW") (some q) k approx).1 = 0) ∧
    (∀ (sw : StubFAISSWrapper) (oracle : Nat → ℚ) (k : Nat),
        (stub_search sw oracle k).length = min k sw.fake.ids.length) := by
  refine ⟨search_length_flat, search_length_le, ?_, ?_⟩
  · intro d q k approx
    refine ⟨?_, ?_, ?_, ?_⟩
    · by_cases hk : k = 0
      · simp [search, mkFAISSWrapper, create_index, flatIndex, hk]
      · simp [search, mkFAISSWrapper, create_index, flatIndex, hk, faissSearchRaw,
          kindIsIVF, kindIsFlat, filter_replicate_pad]
    · simp [pgv_faiss_search, is_trained, mkFAISSWrapper, create_index, flatIndex]
    · by_cases hk : k = 0
      · simp [search, mkFAISSWrapper, create_index, hnswIndex, hk]
      · simp [search, mkFAISSWrapper, create_index, hnswIndex, hk, faissSearchRaw,
          kindIsIVF, kindIsFlat, filter_replicate_pad]
    · simp [pgv_faiss_search, is_trained, mkFAISSWrapper, create_index, hnswIndex]
  · intro sw oracle k
    have hrw : stub_search sw oracle k = List.insertionSort stubLe
        ((List.range (min k sw.fake.ids.length)).map
          (fun i => (sw.fake.ids.getD i 0, oracle i))) := rfl
    rw [hrw, (List.perm_insertionSort _ _).length_eq, List.length_map, List.length_range]

theorem claim_C5_witness :
    (add_vectors (mkFAISSWrapper 1 "Flat") (some [[0], [1], [2]]) (some [1, 2, 3])
        true true).2.index =
      some { kind := .flatL2 1, isTrained := true,
             entries := [(1, [0]), (2, [1]), (3, [2])], trainCount := 0, trainedWith := [] } ∧
    ({ kind := .flatL2 1, isTrained := true,
       entries := [(1, [0]), (2, [1]), (3, [2])], trainCount := 0,
       trainedWith := [] } : FaissIndex).kind = .flatL2 1 ∧
    (∀ e ∈ ([((1 : Int), [(0 : ℚ)]), (2, [1]), (3, [2])] : List (Int × List ℚ)), 0 ≤ e.1) ∧
    (search (add_vectors (mkFAISSWrapper 1 "Flat") (some [[0], [1], [2]]) (some [1, 2, 3])
        true true).2 (some [0]) 2 []).length = min 2 3 :=
  ⟨by decide, by decide, by decide,
    claim_C5_search_result_count.1
      (add_vectors (mkFAISSWrapper 1 "Flat") (some [[0], [1], [2]]) (some [1, 2, 3])
        true true).2
      { kind := .flatL2 1, isTrained := true,
        entries := [(1, [0]), (2, [1]), (3, [2])], trainCount := 0, trainedWith := [] }
      1 [0] 2 [] (by decide) (by decide) (by decide) (by decide)⟩

theorem claim_C4_witness :
    (∀ i : Nat, 1/10 ≤ ((fun _ => (1 : ℚ)) i) ∧ ((fun _ => (1 : ℚ)) i) < 10) ∧
    (stub_search stubScenario (fun _ => 1) 2).length = 2 ∧
    (∀ r ∈ stub_search stubScenario (fun _ => 1) 2, 1/10 ≤ r.2) ∧
    (stub_search stubScenario (fun _ => 1) 2).map Prod.snd ≠ [0, 1] :=
  ⟨fun _ => ⟨by norm_num, by norm_num⟩,
    claim_C4_stub_search_random_distances (fun _ => 1)
      (fun _ => ⟨by norm_num, by norm_num⟩)⟩

/-- C9 counterexample: the bulk path PGVConnection::store_vectors streams
components with the stream's default formatting, not with
std::fixed << setprecision(6).  For the vector [0.5] it emits the literal
[0.5] -- one fractional digit, not six -- while insert_vector emits
[0.500000] for the same vector: the claim that the bulk store encodes with
exactly 6 fractional digits is false. -/
theorem claim_C9_counterexample_store_vectors :
    store_vectors_row_query "items" 7 [(1/2 : ℚ)] =
      "INSERT INTO items (id, embedding) VALUES (7, '[0.5]')" ∧
    fracLen "0.5" = 1 ∧
    insert_vector_query "items" 7 [(1/2 : ℚ)] =
      "INSERT INTO items (id, embedding) VALUES (7, '[0.500000]')" ∧
    batch_insert_query "items" [7] [[(1/2 : ℚ)]] =
      "INSERT INTO items (id, embedding) VALUES (7, '[0.500000]')" := by
  refine ⟨?_, by decide, ?_, ?_⟩
  · rw [store_vectors_row_query, vecLiteral]
    rw [show [(1/2 : ℚ)].map defaultFmt = [defaultFmt (1/2 : ℚ)] from rfl, defaultFmt_half]
    rfl
  · rw [insert_vector_query, vecLiteral]
    rw [show [(1/2 : ℚ)].map fixed6 = [fixed6 (1/2 : ℚ)] from rfl, fixed6_half]
    rfl
  · rw [batch_insert_query]
    rw [show ([(7 : Int)].zip [[(1/2 : ℚ)]]).map (fun p => batch_insert_tuple p.1 p.2) =
      [batch_insert_tuple 7 [(1/2 : ℚ)]] from rfl]
    rw [batch_insert_tuple, vecLiteral]
    rw [show [(1/2 : ℚ)].map fixed6 = [fixed6 (1/2 : ℚ)] from rfl, fixed6_half]
    rfl

/-- C9 amended: the single-insert and batch-insert encoders (and any other
use of the fixed-6 component encoder) emit every component with exactly 6
fractional digits, and the encoding is lossless for components expressible
in 6 decimal digits; the bulk store_vectors path does not share this
encoder (see the counterexample). -/
theorem claim_C9_fixed6_insert_encoders :
    (∀ (vec : List ℚ) (s : String), s ∈ vec.map fixed6 → fracLen s = 6) ∧
    (∀ q : ℚ, (q * 1000000).den = 1 → fixed6Val q = q) := by
  constructor
  · intro vec s hs
    rcases List.mem_map.mp hs with ⟨q, _, hq⟩
    rw [← hq]
    exact fracLen_fixed6 q
  · exact fixed6Val_exact

theorem claim_C9_fixed6_witness :
    fixed6 (1/2) ∈ ([(1/2 : ℚ)].map fixed6) ∧
    fracLen (fixed6 (1/2)) = 6 ∧
    (((317/500 : ℚ)) * 1000000).den = 1 ∧
    fixed6Val (317/500) = 317/500 := by
  have hden : (((317/500 : ℚ)) * 1000000).den = 1 := by
    rw [show (317/500 : ℚ) * 1000000 = 634000 by norm_num]
    simp
  exact ⟨by simp,
    claim_C9_fixed6_insert_encoders.1 [(1/2 : ℚ)] (fixed6 (1/2)) (by simp),
    hden,
    claim_C9_fixed6_insert_encoders.2 (317/500) hden⟩

end PgvFaiss
